import Mathlib

/-!
Verification of the metrological tolerance computations of `codigo.py`
(repository Tolerancias).

The computation core consists of:
  * `calcular_tolerancia_sensor` (sensor tolerance estimator),
  * `calcular_tolerancia_metrologica` (Case A, uncertainty budget),
  * `SensorCalibrationAnalyzer.calcular_tolerancia_transmision` (Case B,
    normative precision-class analysis),
  * `calibracion_por_comparacion` (Case C, comparison calibration).

Modelling conventions:
  * Python floats are modelled as real numbers; `round(x, n)` is modelled by
    `roundTo n x` (round `x * 10^n` to the nearest integer, divide back).
  * `np.std(xs, ddof)` is modelled by `stdSample` / `stdPop`.
  * Python float division by `0.0` raises `ZeroDivisionError`; a fallible
    computation is therefore modelled as `Except PyError _`, with the
    zero-divisor test placed exactly where the source divides.
  * `np.std(xs, ddof := 1)` yields NaN (not an exception) for fewer than two
    samples; the reals cannot represent NaN, so `stdSample` returns the
    Lean junk value (division by zero is zero) there, and every statement
    about it assumes at least two samples.
  * pandas DataFrames are modelled as records of columns (lists of reals);
    the optional derived `error` column of Case C is an `Option` field, since
    `calibracion_por_comparacion` assigns it in place.
  * String-valued display labels (the unit suffixes of the result keys, the
    formatted range string) and the `mostrar_detalles` audit sub-mapping do
    not affect any computed number and are not modelled.
-/

noncomputable section

namespace Tolerancias

/-- Python `round(x, n)` on the reals: round `x * 10^n` to the nearest
integer and divide back.  (Python rounds half to even on the underlying
float; on real-number surrogates the tie rule is immaterial and the
round-half-up `round` of Mathlib is used.) -/
def roundTo (n : ℕ) (x : ℝ) : ℝ := ((round (x * 10 ^ n) : ℤ) : ℝ) / 10 ^ n

/-- `np.mean xs`: arithmetic mean (junk `0` on the empty list, where numpy
yields NaN with a warning). -/
def mean (xs : List ℝ) : ℝ := xs.sum / xs.length

/-- Sum of squared deviations from the mean, the numerator shared by the two
`np.std` variants. -/
def sumSqDev (xs : List ℝ) : ℝ := (xs.map (fun x => (x - mean xs) ^ 2)).sum

/-- `np.std(xs)`: population standard deviation (`ddof = 0`). -/
def stdPop (xs : List ℝ) : ℝ := Real.sqrt (sumSqDev xs / xs.length)

/-- `np.std(xs, ddof := 1)`: sample standard deviation with Bessel
correction.  numpy yields NaN for fewer than two samples; here the junk
value `Real.sqrt 0 = 0` results, and statements assume `2 ≤ xs.length`. -/
def stdSample (xs : List ℝ) : ℝ :=
  Real.sqrt (sumSqDev xs / ((xs.length : ℝ) - 1))

/-- `np.max(np.abs(xs))` for a nonempty `xs`: since every `|x|` is
nonnegative, folding `max` with initial value `0` agrees with the numpy
maximum on nonempty input (and returns junk `0` on the empty list). -/
def maxAbs (xs : List ℝ) : ℝ := (xs.map (fun x => |x|)).foldr max 0

/-- The Python exceptions the computation core can raise: the explicit
`ValueError` of Case B on empty calibration data, and the implicit
`ZeroDivisionError` of a float division by `0.0`. -/
inductive PyError where
  | valueError (msg : String)
  | zeroDivisionError
deriving DecidableEq

/-- `calcular_tolerancia_sensor` (codigo.py lines 10-17): automatic formula
for temperature sensors, otherwise the user-supplied constant with default
`0.5`. -/
def calcular_tolerancia_sensor (rango_min rango_max : ℝ) (sensor_type : String)
    (tolerancia_sensor_input : Option ℝ) : ℝ :=
  if sensor_type = "temperatura" then
    0.15 + 0.0020 * max |rango_min| |rango_max|
  else
    tolerancia_sensor_input.getD 0.5

/-- The four numeric entries of the Case A result mapping, in source order
(the keys carry a display-only unit suffix, not modelled). -/
structure ResultadoMetrologico where
  tolerancia_estricta : ℝ
  tolerancia_practica : ℝ
  tolerancia_porcentaje : ℝ
  tolerancia_total : ℝ

/-- `calcular_tolerancia_metrologica` (codigo.py lines 19-54): Case A
uncertainty budget.  The division by `span` at line 36 raises
`ZeroDivisionError` when `span = 0` (all operands are Python floats), so the
model returns an error exactly there. -/
def calcular_tolerancia_metrologica (errores : List ℝ)
    (incertidumbre_patron : ℝ) (rango_calibrado : ℝ × ℝ)
    (tolerancia_transmisor tolerancia_plc tolerancia_pantalla : ℝ)
    (sensor_type : String) (tolerancia_sensor_input : Option ℝ) :
    Except PyError ResultadoMetrologico :=
  let desviacion_estandar := stdSample errores
  let incertidumbre_combinada :=
    Real.sqrt (desviacion_estandar ^ 2 + incertidumbre_patron ^ 2)
  let incertidumbre_expandida := 2 * incertidumbre_combinada
  let tolerancia_estricta := incertidumbre_expandida
  let tolerancia_practica := roundTo 2 (incertidumbre_expandida + 0.05)
  let rango_min := rango_calibrado.1
  let rango_max := rango_calibrado.2
  let span := |rango_max - rango_min|
  if span = 0 then Except.error PyError.zeroDivisionError
  else
    let tolerancia_porcentaje := incertidumbre_expandida / span * 100
    let tolerancia_sensor :=
      calcular_tolerancia_sensor rango_min rango_max sensor_type
        tolerancia_sensor_input
    let tolerancia_total :=
      Real.sqrt (tolerancia_sensor ^ 2 + tolerancia_transmisor ^ 2 +
        tolerancia_plc ^ 2 + tolerancia_pantalla ^ 2)
    Except.ok
      { tolerancia_estricta := roundTo 4 tolerancia_estricta
        tolerancia_practica := tolerancia_practica
        tolerancia_porcentaje := roundTo 2 tolerancia_porcentaje
        tolerancia_total := roundTo 2 tolerancia_total }

/-- One row of the Case A/B calibration DataFrame:
`{valor_medido, error}`. -/
structure CalSample where
  valor_medido : ℝ
  error : ℝ

/-- The per-sensor normative parameter record of
`SensorCalibrationAnalyzer.__init__`: the precision-class dictionary is
modelled as a partial map from class names. -/
structure ParametrosNormativos where
  clase_precision : String → Option ℝ
  factor_base_tolerancia : ℝ
  factor_compensacion : ℝ

/-- The `temperatura` entry of `parametros_normativos`. -/
def parametros_temperatura : ParametrosNormativos where
  clase_precision := fun c =>
    if c = "alta" then some 0.1
    else if c = "estandar" then some 0.5
    else if c = "baja" then some 1.0
    else none
  factor_base_tolerancia := 0.15
  factor_compensacion := 0.0020

/-- The `presion` entry of `parametros_normativos`. -/
def parametros_presion : ParametrosNormativos where
  clase_precision := fun c =>
    if c = "alta" then some 0.1
    else if c = "estandar" then some 0.5
    else if c = "baja" then some 1.0
    else none
  factor_base_tolerancia := 0.20
  factor_compensacion := 0.0025

/-- The `caudal` entry of `parametros_normativos`. -/
def parametros_caudal : ParametrosNormativos where
  clase_precision := fun c =>
    if c = "alta" then some 0.2
    else if c = "estandar" then some 0.5
    else if c = "baja" then some 1.0
    else none
  factor_base_tolerancia := 0.25
  factor_compensacion := 0.0030

/-- The `velocidad` entry of `parametros_normativos`. -/
def parametros_velocidad : ParametrosNormativos where
  clase_precision := fun c =>
    if c = "alta" then some 0.1
    else if c = "estandar" then some 0.5
    else if c = "baja" then some 1.0
    else none
  factor_base_tolerancia := 0.18
  factor_compensacion := 0.0015

/-- The `parametros_normativos` dictionary keyed by sensor kind. -/
def parametros_normativos (tipo : String) : Option ParametrosNormativos :=
  if tipo = "temperatura" then some parametros_temperatura
  else if tipo = "presion" then some parametros_presion
  else if tipo = "caudal" then some parametros_caudal
  else if tipo = "velocidad" then some parametros_velocidad
  else none

/-- The numeric and class-identifying entries of the Case B result mapping,
in source order (`Tipo de sensor`, `Unidades` and the formatted range string
are display-only copies of the inputs and are not modelled). -/
structure ResultadoTransmision where
  clase_precision : String
  error_medio : ℝ
  error_maximo : ℝ
  error_maximo_permitido_porcentual : ℝ
  error_maximo_permitido_unidades : ℝ
  desviacion_estandar : ℝ
  tolerancia_transmision : ℝ
  porcentaje_tolerancia : ℝ
  incertidumbre_combinada : ℝ
  incertidumbre_expandida : ℝ

/-- `SensorCalibrationAnalyzer.calcular_tolerancia_transmision`
(codigo.py lines 86-143): Case B normative analysis.  Raises `ValueError`
on empty calibration data (line 88) and `ZeroDivisionError` at the division
by `rango_medicion` (line 107, all operands Python floats) when the span is
zero.  `mostrar_detalles` only attaches a display sub-mapping of already
computed values and is not modelled. -/
def calcular_tolerancia_transmision (tipo_sensor : String)
    (rango_calibrado : ℝ × ℝ) (datos_calibracion : List CalSample)
    (clase_precision : String) : Except PyError ResultadoTransmision :=
  if datos_calibracion.isEmpty then
    Except.error (PyError.valueError "No se proporcionaron datos de calibracion")
  else
    let errores := datos_calibracion.map CalSample.error
    let error_medio := mean errores
    let error_maximo := maxAbs errores
    let desviacion_estandar := stdPop errores
    let params := (parametros_normativos tipo_sensor).getD parametros_temperatura
    let rango_min := rango_calibrado.1
    let rango_max := rango_calibrado.2
    let rango_medicion := rango_max - rango_min
    let precision_base := (params.clase_precision clase_precision).getD 0.5
    let factor_base := params.factor_base_tolerancia
    let factor_compensacion :=
      params.factor_compensacion * max |rango_min| |rango_max|
    let tolerancia_transmision := factor_base + factor_compensacion
    let error_maximo_permitido_porcentual := precision_base
    let error_maximo_permitido_unidades :=
      error_maximo_permitido_porcentual / 100 * rango_medicion
    if rango_medicion = 0 then Except.error PyError.zeroDivisionError
    else
      let porcentaje_tolerancia := tolerancia_transmision / rango_medicion * 100
      let incertidumbre_combinada := Real.sqrt (desviacion_estandar ^ 2)
      let incertidumbre_expandida := 2 * incertidumbre_combinada
      Except.ok
        { clase_precision := clase_precision
          error_medio := roundTo 4 error_medio
          error_maximo := roundTo 4 error_maximo
          error_maximo_permitido_porcentual :=
            roundTo 2 error_maximo_permitido_porcentual
          error_maximo_permitido_unidades :=
            roundTo 4 error_maximo_permitido_unidades
          desviacion_estandar := roundTo 4 desviacion_estandar
          tolerancia_transmision := roundTo 4 tolerancia_transmision
          porcentaje_tolerancia := roundTo 2 porcentaje_tolerancia
          incertidumbre_combinada := roundTo 4 incertidumbre_combinada
          incertidumbre_expandida := roundTo 4 incertidumbre_expandida }

/-- The Case C comparison DataFrame: the two input columns and the derived
`error` column, which is absent (`none`) until `calibracion_por_comparacion`
assigns it in place. -/
structure DataFrameComparacion where
  valor_equipo : List ℝ
  valor_referencia : List ℝ
  error : Option (List ℝ)

/-- The four entries of the Case C result mapping, in source order. -/
structure ResultadoComparacion where
  error_medio : ℝ
  error_maximo : ℝ
  desviacion_estandar : ℝ
  tolerancia_transmision : ℝ

/-- `calibracion_por_comparacion` (codigo.py lines 148-165): Case C.  The
source assigns `df["error"] = df["valor_equipo"] - df["valor_referencia"]`,
mutating the DataFrame of the caller, so the model returns the post-call
DataFrame alongside the result mapping.  The pandas column subtraction
(identical default indices) is elementwise `zipWith`. -/
def calibracion_por_comparacion (df : DataFrameComparacion) :
    DataFrameComparacion × ResultadoComparacion :=
  let errs := List.zipWith (fun a b => a - b) df.valor_equipo df.valor_referencia
  let dfPost : DataFrameComparacion :=
    { valor_equipo := df.valor_equipo
      valor_referencia := df.valor_referencia
      error := some errs }
  let error_medio := mean errs
  let error_maximo := maxAbs errs
  let desviacion_estandar := stdSample errs
  let tolerancia_transmision := 2 * desviacion_estandar
  (dfPost,
    { error_medio := roundTo 4 error_medio
      error_maximo := roundTo 4 error_maximo
      desviacion_estandar := roundTo 4 desviacion_estandar
      tolerancia_transmision := roundTo 4 tolerancia_transmision })

/-! ### Shared helper lemmas -/

theorem roundTo_zero (n : ℕ) : roundTo n 0 = 0 := by
  simp [roundTo]

theorem roundTo_mono {n : ℕ} {x y : ℝ} (h : x ≤ y) :
    roundTo n x ≤ roundTo n y := by
  have hp : (0 : ℝ) < 10 ^ n := by positivity
  have hr : round (x * 10 ^ n) ≤ round (y * 10 ^ n) := by
    rw [round_eq, round_eq]
    exact Int.floor_le_floor (by nlinarith)
  unfold roundTo
  gcongr

theorem isEmpty_eq_false_of_ne_nil {α : Type _} {l : List α} (h : l ≠ []) :
    l.isEmpty = false := by
  cases l with
  | nil => exact absurd rfl h
  | cons a t => rfl

theorem stdPop_nonneg (xs : List ℝ) : 0 ≤ stdPop xs := by
  unfold stdPop
  exact Real.sqrt_nonneg _

theorem stdSample_nonneg (xs : List ℝ) : 0 ≤ stdSample xs := by
  unfold stdSample
  exact Real.sqrt_nonneg _

/-- Normal form of a successful Case A call: with a nonzero span the function
returns the four rounded figures of the uncertainty budget. -/
theorem metrologica_eq_ok (errores : List ℝ) (u rmin rmax tt tp tpa : ℝ)
    (stype : String) (inp : Option ℝ) (hspan : rmax - rmin ≠ 0) :
    calcular_tolerancia_metrologica errores u (rmin, rmax) tt tp tpa stype inp
      = Except.ok
        { tolerancia_estricta :=
            roundTo 4 (2 * Real.sqrt (stdSample errores ^ 2 + u ^ 2))
          tolerancia_practica :=
            roundTo 2 (2 * Real.sqrt (stdSample errores ^ 2 + u ^ 2) + 0.05)
          tolerancia_porcentaje :=
            roundTo 2
              (2 * Real.sqrt (stdSample errores ^ 2 + u ^ 2) / |rmax - rmin| * 100)
          tolerancia_total :=
            roundTo 2 (Real.sqrt
              (calcular_tolerancia_sensor rmin rmax stype inp ^ 2
                + tt ^ 2 + tp ^ 2 + tpa ^ 2)) } := by
  have habs : ¬ |rmax - rmin| = 0 := by simpa [abs_eq_zero] using hspan
  simp [calcular_tolerancia_metrologica, habs]

/-- Normal form of a successful Case B call: with nonempty data and a nonzero
signed span the function returns the rounded normative report. -/
theorem transmision_eq_ok (tipo : String) (rmin rmax : ℝ)
    (datos : List CalSample) (clase : String)
    (hd : datos ≠ []) (hspan : rmax - rmin ≠ 0) :
    calcular_tolerancia_transmision tipo (rmin, rmax) datos clase
      = Except.ok
        { clase_precision := clase
          error_medio := roundTo 4 (mean (datos.map CalSample.error))
          error_maximo := roundTo 4 (maxAbs (datos.map CalSample.error))
          error_maximo_permitido_porcentual :=
            roundTo 2
              (((((parametros_normativos tipo).getD
                  parametros_temperatura).clase_precision clase).getD 0.5))
          error_maximo_permitido_unidades :=
            roundTo 4
              (((((parametros_normativos tipo).getD
                  parametros_temperatura).clase_precision clase).getD 0.5)
                / 100 * (rmax - rmin))
          desviacion_estandar := roundTo 4 (stdPop (datos.map CalSample.error))
          tolerancia_transmision :=
            roundTo 4
              (((parametros_normativos tipo).getD
                  parametros_temperatura).factor_base_tolerancia
                + ((parametros_normativos tipo).getD
                    parametros_temperatura).factor_compensacion
                  * max |rmin| |rmax|)
          porcentaje_tolerancia :=
            roundTo 2
              ((((parametros_normativos tipo).getD
                  parametros_temperatura).factor_base_tolerancia
                + ((parametros_normativos tipo).getD
                    parametros_temperatura).factor_compensacion
                  * max |rmin| |rmax|)
                / (rmax - rmin) * 100)
          incertidumbre_combinada :=
            roundTo 4 (stdPop (datos.map CalSample.error))
          incertidumbre_expandida :=
            roundTo 4 (2 * stdPop (datos.map CalSample.error)) } := by
  have hde : datos.isEmpty = false := isEmpty_eq_false_of_ne_nil hd
  have hs : Real.sqrt (stdPop (datos.map CalSample.error) ^ 2)
      = stdPop (datos.map CalSample.error) :=
    Real.sqrt_sq (stdPop_nonneg _)
  simp [calcular_tolerancia_transmision, hde, hspan, hs]

/-- For every sensor kind (known or fallback) the precision-class table maps
`estandar` to `0.5`. -/
theorem clase_estandar_eq (tipo : String) :
    (((parametros_normativos tipo).getD
        parametros_temperatura).clase_precision "estandar") = some 0.5 := by
  unfold parametros_normativos
  split_ifs <;>
    simp [parametros_temperatura, parametros_presion, parametros_caudal,
      parametros_velocidad]

/-! ### Claims -/

/-- C5: for every range, the estimator returns
`0.15 + 0.0020 * max |rango_min| |rango_max|` for temperature sensors
(regardless of any user-supplied tolerance), the user-supplied tolerance for
any other sensor kind when one is provided and `0.5` otherwise; in
particular the temperature estimate on the range `(0, 100)` is `0.35`. -/
theorem C5_sensor_estimator (rango_min rango_max t : ℝ) (o : Option ℝ)
    (s : String) (hs : s ≠ "temperatura") :
    calcular_tolerancia_sensor rango_min rango_max "temperatura" o
      = 0.15 + 0.0020 * max |rango_min| |rango_max|
    ∧ calcular_tolerancia_sensor rango_min rango_max s (some t) = t
    ∧ calcular_tolerancia_sensor rango_min rango_max s none = 0.5
    ∧ calcular_tolerancia_sensor 0 100 "temperatura" none = 0.35 := by
  refine ⟨by simp [calcular_tolerancia_sensor], ?_, ?_, ?_⟩
  · simp [calcular_tolerancia_sensor, hs]
  · simp [calcular_tolerancia_sensor, hs]
  · rw [calcular_tolerancia_sensor]
    norm_num

/-- Witness for C5 at the concrete input `(0, 50, presion, some 0.3)`. -/
theorem C5_sensor_estimator_witness :
    ("presion" : String) ≠ "temperatura"
    ∧ calcular_tolerancia_sensor 0 50 "presion" (some 0.3) = 0.3 :=
  ⟨by decide, (C5_sensor_estimator 0 50 0.3 none "presion" (by decide)).2.1⟩

/-- C3: with a zero calibrated span (`rango_min = rango_max`) Case A raises
`ZeroDivisionError` at its division by the span, and Case B likewise raises
an error (the empty-data `ValueError` or the span `ZeroDivisionError`), so
neither returns a result mapping. -/
theorem C3_zero_span_raises (errores : List ℝ) (u tt tp tpa : ℝ)
    (stype : String) (inp : Option ℝ) (tipo : String)
    (datos : List CalSample) (clase : String) (rmin rmax : ℝ)
    (h : rmin = rmax) :
    calcular_tolerancia_metrologica errores u (rmin, rmax) tt tp tpa stype inp
      = Except.error PyError.zeroDivisionError
    ∧ ∃ e, calcular_tolerancia_transmision tipo (rmin, rmax) datos clase
        = Except.error e := by
  subst h
  refine ⟨by simp [calcular_tolerancia_metrologica], ?_⟩
  cases hd : datos.isEmpty with
  | true =>
      exact ⟨PyError.valueError "No se proporcionaron datos de calibracion",
        by simp [calcular_tolerancia_transmision, hd]⟩
  | false =>
      exact ⟨PyError.zeroDivisionError,
        by simp [calcular_tolerancia_transmision, hd]⟩

/-- Witness for C3 at a concrete degenerate range `(5, 5)`. -/
theorem C3_zero_span_raises_witness :
    (5 : ℝ) = 5
    ∧ (calcular_tolerancia_metrologica [0.1, 0.2] 0.1 (5, 5) 0.2 0.1 0.05
        "temperatura" none = Except.error PyError.zeroDivisionError
      ∧ ∃ e, calcular_tolerancia_transmision "temperatura" (5, 5)
          [{ valor_medido := 25, error := 0.1 }] "estandar"
          = Except.error e) :=
  ⟨rfl, C3_zero_span_raises [0.1, 0.2] 0.1 0.2 0.1 0.05 "temperatura" none
    "temperatura" [{ valor_medido := 25, error := 0.1 }] "estandar" 5 5 rfl⟩

/-- C9 counterexample: `calibracion_por_comparacion` is not pure — on a
concrete DataFrame without an `error` column, the DataFrame after the call
differs from the one passed in (the source assigns `df["error"]` in place). -/
theorem C9_counterexample :
    (calibracion_por_comparacion
      { valor_equipo := [25], valor_referencia := [24.8], error := none }).1
      ≠ { valor_equipo := [25], valor_referencia := [24.8], error := none } := by
  intro h
  have he := congrArg DataFrameComparacion.error h
  simp [calibracion_por_comparacion] at he

/-- C9 amended: Case A and Case B read their inputs without assignment
(modelled as pure functions), and Case C mutates the passed DataFrame only
by setting the derived `error` column to the pairwise differences
`valor_equipo - valor_referencia`; the two input columns are unchanged. -/
theorem C9_amended_frame (df : DataFrameComparacion) :
    (calibracion_por_comparacion df).1.valor_equipo = df.valor_equipo
    ∧ (calibracion_por_comparacion df).1.valor_referencia = df.valor_referencia
    ∧ (calibracion_por_comparacion df).1.error
        = some (List.zipWith (fun a b => a - b) df.valor_equipo
            df.valor_referencia) :=
  ⟨rfl, rfl, rfl⟩

/-- C6 counterexample: a non-empty sample collection on which Case B raises
(the degenerate range `(0, 0)` makes the division by the measurement span a
Python float division by zero), so it does not return a result mapping. -/
theorem C6_counterexample :
    calcular_tolerancia_transmision "temperatura" (0, 0)
      [{ valor_medido := 25, error := 0.1 }] "estandar"
      = Except.error PyError.zeroDivisionError := by
  simp [calcular_tolerancia_transmision]

/-- C6 amended: Case B raises its input-validation `ValueError` exactly on an
empty sample collection; for every non-empty sample collection with nonzero
measurement span it returns a result mapping without raising (a zero span
instead raises a division error, never the validation error). -/
theorem C6_amended_validation (tipo : String) (rmin rmax : ℝ)
    (datos : List CalSample) (clase : String) :
    (datos = [] →
      calcular_tolerancia_transmision tipo (rmin, rmax) datos clase
        = Except.error
            (PyError.valueError "No se proporcionaron datos de calibracion"))
    ∧ (datos ≠ [] → rmax - rmin ≠ 0 →
        ∃ r, calcular_tolerancia_transmision tipo (rmin, rmax) datos clase
          = Except.ok r)
    ∧ (datos ≠ [] → ∀ msg,
        calcular_tolerancia_transmision tipo (rmin, rmax) datos clase
          ≠ Except.error (PyError.valueError msg)) := by
  refine ⟨?_, ?_, ?_⟩
  · intro h
    subst h
    simp [calcular_tolerancia_transmision]
  · intro hd hspan
    exact ⟨_, transmision_eq_ok tipo rmin rmax datos clase hd hspan⟩
  · intro hd msg
    have hde := isEmpty_eq_false_of_ne_nil hd
    by_cases hspan : rmax - rmin = 0
    · simp [calcular_tolerancia_transmision, hde, hspan]
    · rw [transmision_eq_ok tipo rmin rmax datos clase hd hspan]
      simp

/-- Witness for the amended C6 at a concrete non-empty, nonzero-span call. -/
theorem C6_amended_validation_witness :
    ([{ valor_medido := 25, error := 0.1 }] : List CalSample) ≠ []
    ∧ (100 : ℝ) - 0 ≠ 0
    ∧ ∃ r, calcular_tolerancia_transmision "temperatura" (0, 100)
        [{ valor_medido := 25, error := 0.1 }] "estandar" = Except.ok r :=
  ⟨by simp, by norm_num,
    (C6_amended_validation "temperatura" 0 100
      [{ valor_medido := 25, error := 0.1 }] "estandar").2.1
      (by simp) (by norm_num)⟩

/-- C7: a precision class absent from the precision-class table of the sensor kind does not make
Case B raise; the base percentage falls back to `0.5`, so the reported
permitted-error values (percent and units) equal those of the `estandar`
class, whose table entry is `0.5` for every sensor kind. -/
theorem C7_unknown_class_fallback (tipo : String) (rmin rmax : ℝ)
    (datos : List CalSample) (clase : String)
    (hclase : (((parametros_normativos tipo).getD
        parametros_temperatura).clase_precision clase) = none)
    (hd : datos ≠ []) (hspan : rmax - rmin ≠ 0) :
    ∃ r rstd,
      calcular_tolerancia_transmision tipo (rmin, rmax) datos clase
        = Except.ok r
      ∧ calcular_tolerancia_transmision tipo (rmin, rmax) datos "estandar"
          = Except.ok rstd
      ∧ r.error_maximo_permitido_porcentual = roundTo 2 0.5
      ∧ r.error_maximo_permitido_porcentual
          = rstd.error_maximo_permitido_porcentual
      ∧ r.error_maximo_permitido_unidades
          = rstd.error_maximo_permitido_unidades := by
  refine ⟨_, _, transmision_eq_ok tipo rmin rmax datos clase hd hspan,
    transmision_eq_ok tipo rmin rmax datos "estandar" hd hspan, ?_, ?_, ?_⟩
  · simp [hclase]
  · simp [hclase, clase_estandar_eq]
  · simp [hclase, clase_estandar_eq]

/-- Witness for C7 at the unrecognized class `ultra` on a temperature
sensor. -/
theorem C7_unknown_class_fallback_witness :
    (((parametros_normativos "temperatura").getD
        parametros_temperatura).clase_precision "ultra") = none
    ∧ ([{ valor_medido := 25, error := 0.1 }] : List CalSample) ≠ []
    ∧ (100 : ℝ) - 0 ≠ 0
    ∧ ∃ r rstd,
        calcular_tolerancia_transmision "temperatura" (0, 100)
          [{ valor_medido := 25, error := 0.1 }] "ultra" = Except.ok r
        ∧ calcular_tolerancia_transmision "temperatura" (0, 100)
            [{ valor_medido := 25, error := 0.1 }] "estandar" = Except.ok rstd
        ∧ r.error_maximo_permitido_porcentual = roundTo 2 0.5
        ∧ r.error_maximo_permitido_porcentual
            = rstd.error_maximo_permitido_porcentual
        ∧ r.error_maximo_permitido_unidades
            = rstd.error_maximo_permitido_unidades :=
  ⟨by simp [parametros_normativos, parametros_temperatura],
    by simp, by norm_num,
    C7_unknown_class_fallback "temperatura" 0 100
      [{ valor_medido := 25, error := 0.1 }] "ultra"
      (by simp [parametros_normativos, parametros_temperatura])
      (by simp) (by norm_num)⟩

/-- C1: Case A with at least two error samples and a nonzero span computes
the Bessel-corrected sample standard deviation `s = stdSample errores`, the
expanded uncertainty `e = 2 * sqrt (s^2 + u^2)`, and returns
`round(e, 4)` as strict tolerance, `round(e + 0.05, 2)` as practical
tolerance, `round(e / |rmax - rmin| * 100, 2)` as tolerance percent, and
`round(sqrt (sensor^2 + transmitter^2 + plc^2 + display^2), 2)` as total
tolerance. -/
theorem C1_caso_A (errores : List ℝ) (u rmin rmax tt tp tpa : ℝ)
    (stype : String) (inp : Option ℝ)
    (hn : 2 ≤ errores.length) (hspan : rmax - rmin ≠ 0) :
    calcular_tolerancia_metrologica errores u (rmin, rmax) tt tp tpa stype inp
      = Except.ok
        { tolerancia_estricta :=
            roundTo 4 (2 * Real.sqrt (stdSample errores ^ 2 + u ^ 2))
          tolerancia_practica :=
            roundTo 2 (2 * Real.sqrt (stdSample errores ^ 2 + u ^ 2) + 0.05)
          tolerancia_porcentaje :=
            roundTo 2
              (2 * Real.sqrt (stdSample errores ^ 2 + u ^ 2)
                / |rmax - rmin| * 100)
          tolerancia_total :=
            roundTo 2 (Real.sqrt
              (calcular_tolerancia_sensor rmin rmax stype inp ^ 2
                + tt ^ 2 + tp ^ 2 + tpa ^ 2)) } :=
  metrologica_eq_ok errores u rmin rmax tt tp tpa stype inp hspan

/-- Witness for C1 at the worked example of the specification:
`errores = [0.2, -0.1]`, `u = 0.1`, range `(0, 100)`. -/
theorem C1_caso_A_witness :
    2 ≤ ([0.2, -0.1] : List ℝ).length
    ∧ (100 : ℝ) - 0 ≠ 0
    ∧ calcular_tolerancia_metrologica [0.2, -0.1] 0.1 (0, 100) 0.2 0.1 0.05
        "temperatura" none
      = Except.ok
        { tolerancia_estricta :=
            roundTo 4 (2 * Real.sqrt (stdSample [0.2, -0.1] ^ 2 + 0.1 ^ 2))
          tolerancia_practica :=
            roundTo 2
              (2 * Real.sqrt (stdSample [0.2, -0.1] ^ 2 + 0.1 ^ 2) + 0.05)
          tolerancia_porcentaje :=
            roundTo 2
              (2 * Real.sqrt (stdSample [0.2, -0.1] ^ 2 + 0.1 ^ 2)
                / |(100 : ℝ) - 0| * 100)
          tolerancia_total :=
            roundTo 2 (Real.sqrt
              (calcular_tolerancia_sensor 0 100 "temperatura" none ^ 2
                + 0.2 ^ 2 + 0.1 ^ 2 + 0.05 ^ 2)) } :=
  ⟨by simp, by norm_num,
    C1_caso_A [0.2, -0.1] 0.1 0 100 0.2 0.1 0.05 "temperatura" none
      (by simp) (by norm_num)⟩

/-- C2: Case B on a non-empty sample list (and nonzero signed span, which
the division requires) uses the population standard deviation (no Bessel
correction), the signed span `rmax - rmin`, transmission tolerance
`base + compensation * max |rmin| |rmax|`, tolerance percent
`transmission / span * 100`, permitted error in units
`base_pct / 100 * span`, combined uncertainty `sqrt (stdPop^2) = stdPop`,
and expanded uncertainty `2 * stdPop`, each rounded as in the source. -/
theorem C2_caso_B (tipo : String) (rmin rmax : ℝ) (datos : List CalSample)
    (clase : String) (hd : datos ≠ []) (hspan : rmax - rmin ≠ 0) :
    calcular_tolerancia_transmision tipo (rmin, rmax) datos clase
      = Except.ok
        { clase_precision := clase
          error_medio := roundTo 4 (mean (datos.map CalSample.error))
          error_maximo := roundTo 4 (maxAbs (datos.map CalSample.error))
          error_maximo_permitido_porcentual :=
            roundTo 2
              (((((parametros_normativos tipo).getD
                  parametros_temperatura).clase_precision clase).getD 0.5))
          error_maximo_permitido_unidades :=
            roundTo 4
              (((((parametros_normativos tipo).getD
                  parametros_temperatura).clase_precision clase).getD 0.5)
                / 100 * (rmax - rmin))
          desviacion_estandar := roundTo 4 (stdPop (datos.map CalSample.error))
          tolerancia_transmision :=
            roundTo 4
              (((parametros_normativos tipo).getD
                  parametros_temperatura).factor_base_tolerancia
                + ((parametros_normativos tipo).getD
                    parametros_temperatura).factor_compensacion
                  * max |rmin| |rmax|)
          porcentaje_tolerancia :=
            roundTo 2
              ((((parametros_normativos tipo).getD
                  parametros_temperatura).factor_base_tolerancia
                + ((parametros_normativos tipo).getD
                    parametros_temperatura).factor_compensacion
                  * max |rmin| |rmax|)
                / (rmax - rmin) * 100)
          incertidumbre_combinada :=
            roundTo 4 (stdPop (datos.map CalSample.error))
          incertidumbre_expandida :=
            roundTo 4 (2 * stdPop (datos.map CalSample.error)) } :=
  transmision_eq_ok tipo rmin rmax datos clase hd hspan

/-- Witness for C2 at a concrete two-sample pressure-sensor call. -/
theorem C2_caso_B_witness :
    ([{ valor_medido := 25, error := 0.2 },
      { valor_medido := 30, error := -0.1 }] : List CalSample) ≠ []
    ∧ (100 : ℝ) - 0 ≠ 0
    ∧ ∃ r, calcular_tolerancia_transmision "presion" (0, 100)
        [{ valor_medido := 25, error := 0.2 },
          { valor_medido := 30, error := -0.1 }] "alta" = Except.ok r :=
  ⟨by simp, by norm_num,
    ⟨_, C2_caso_B "presion" 0 100
      [{ valor_medido := 25, error := 0.2 },
        { valor_medido := 30, error := -0.1 }] "alta"
      (by simp) (by norm_num)⟩⟩

theorem zipWith_sub_self (l : List ℝ) :
    List.zipWith (fun a b => a - b) l l = List.replicate l.length 0 := by
  induction l with
  | nil => rfl
  | cons a t ih => simp [List.replicate_succ, ih]

theorem mean_replicate_zero (n : ℕ) : mean (List.replicate n (0 : ℝ)) = 0 := by
  simp [mean, List.sum_replicate]

theorem sumSqDev_replicate_zero (n : ℕ) :
    sumSqDev (List.replicate n (0 : ℝ)) = 0 := by
  simp [sumSqDev, mean_replicate_zero, List.map_replicate, List.sum_replicate]

theorem stdSample_replicate_zero (n : ℕ) :
    stdSample (List.replicate n (0 : ℝ)) = 0 := by
  simp [stdSample, sumSqDev_replicate_zero]

theorem maxAbs_replicate_zero (n : ℕ) : maxAbs (List.replicate n (0 : ℝ)) = 0 := by
  induction n with
  | zero => rfl
  | succ k ih =>
      rw [List.replicate_succ]
      unfold maxAbs at ih ⊢
      simp only [List.map_cons, List.foldr_cons, ih]
      simp

/-- C4: Case C derives `error_i = equipment - reference` pairwise and
reports the mean error, the maximum absolute error, the Bessel-corrected
sample standard deviation and `2 *` that standard deviation, all rounded to
four decimals; when every equipment value equals its reference value, all
four reported values are `0`. -/
theorem C4_caso_C (df : DataFrameComparacion)
    (hlen : df.valor_equipo.length = df.valor_referencia.length)
    (hn : 2 ≤ df.valor_equipo.length) :
    (calibracion_por_comparacion df).2
      = { error_medio :=
            roundTo 4 (mean (List.zipWith (fun a b => a - b) df.valor_equipo
              df.valor_referencia))
          error_maximo :=
            roundTo 4 (maxAbs (List.zipWith (fun a b => a - b) df.valor_equipo
              df.valor_referencia))
          desviacion_estandar :=
            roundTo 4 (stdSample (List.zipWith (fun a b => a - b)
              df.valor_equipo df.valor_referencia))
          tolerancia_transmision :=
            roundTo 4 (2 * stdSample (List.zipWith (fun a b => a - b)
              df.valor_equipo df.valor_referencia)) }
    ∧ (df.valor_equipo = df.valor_referencia →
        (calibracion_por_comparacion df).2
          = { error_medio := 0
              error_maximo := 0
              desviacion_estandar := 0
              tolerancia_transmision := 0 }) := by
  refine ⟨rfl, ?_⟩
  intro heq
  have hz : List.zipWith (fun a b => a - b) df.valor_equipo df.valor_referencia
      = List.replicate df.valor_equipo.length 0 := by
    rw [← heq]
    exact zipWith_sub_self _
  simp [calibracion_por_comparacion, hz, mean_replicate_zero,
    maxAbs_replicate_zero, stdSample_replicate_zero, roundTo_zero]

/-- A concrete comparison DataFrame of two coinciding pairs, used by the C4
witness. -/
def dfPairesIguales : DataFrameComparacion :=
  { valor_equipo := [25, 30], valor_referencia := [25, 30], error := none }

/-- Witness for C4 on two coinciding pairs. -/
theorem C4_caso_C_witness :
    dfPairesIguales.valor_equipo.length
      = dfPairesIguales.valor_referencia.length
    ∧ 2 ≤ dfPairesIguales.valor_equipo.length
    ∧ (calibracion_por_comparacion dfPairesIguales).2
      = { error_medio := 0
          error_maximo := 0
          desviacion_estandar := 0
          tolerancia_transmision := 0 } :=
  ⟨rfl, by simp [dfPairesIguales],
    (C4_caso_C dfPairesIguales rfl (by simp [dfPairesIguales])).2 rfl⟩

/-- C8: holding the error samples, the reference uncertainty, the range and
the sensor kind fixed, the total tolerance of Case A is monotonically
non-decreasing in each of the four nonnegative component tolerances (the
sensor tolerance entering through the user-supplied value of a
non-temperature sensor kind, for which the estimator returns it
unchanged). -/
theorem C8_total_monotone (errores : List ℝ) (u rmin rmax : ℝ)
    (stype : String) (hst : stype ≠ "temperatura")
    (s1 s2 t1 t2 p1 p2 d1 d2 : ℝ)
    (hs0 : 0 ≤ s1) (hs : s1 ≤ s2) (ht0 : 0 ≤ t1) (ht : t1 ≤ t2)
    (hp0 : 0 ≤ p1) (hp : p1 ≤ p2) (hd0 : 0 ≤ d1) (hd : d1 ≤ d2)
    (hspan : rmax - rmin ≠ 0) :
    ∃ r1 r2,
      calcular_tolerancia_metrologica errores u (rmin, rmax) t1 p1 d1 stype
        (some s1) = Except.ok r1
      ∧ calcular_tolerancia_metrologica errores u (rmin, rmax) t2 p2 d2 stype
          (some s2) = Except.ok r2
      ∧ r1.tolerancia_total ≤ r2.tolerancia_total := by
  refine ⟨_, _,
    metrologica_eq_ok errores u rmin rmax t1 p1 d1 stype (some s1) hspan,
    metrologica_eq_ok errores u rmin rmax t2 p2 d2 stype (some s2) hspan, ?_⟩
  have hsen1 : calcular_tolerancia_sensor rmin rmax stype (some s1) = s1 := by
    simp [calcular_tolerancia_sensor, hst]
  have hsen2 : calcular_tolerancia_sensor rmin rmax stype (some s2) = s2 := by
    simp [calcular_tolerancia_sensor, hst]
  simp only [hsen1, hsen2]
  apply roundTo_mono
  apply Real.sqrt_le_sqrt
  have h1 : s1 ^ 2 ≤ s2 ^ 2 := pow_le_pow_left₀ hs0 hs 2
  have h2 : t1 ^ 2 ≤ t2 ^ 2 := pow_le_pow_left₀ ht0 ht 2
  have h3 : p1 ^ 2 ≤ p2 ^ 2 := pow_le_pow_left₀ hp0 hp 2
  have h4 : d1 ^ 2 ≤ d2 ^ 2 := pow_le_pow_left₀ hd0 hd 2
  linarith

/-- Witness for C8 at concrete component tolerances on a pressure sensor. -/
theorem C8_total_monotone_witness :
    ("presion" : String) ≠ "temperatura"
    ∧ (0 : ℝ) ≤ 0.1 ∧ (0.1 : ℝ) ≤ 0.2 ∧ (0 : ℝ) ≤ 0.2 ∧ (0.2 : ℝ) ≤ 0.3
    ∧ (0 : ℝ) ≤ 0.1 ∧ (0.1 : ℝ) ≤ 0.15 ∧ (0 : ℝ) ≤ 0.05 ∧ (0.05 : ℝ) ≤ 0.06
    ∧ (100 : ℝ) - 0 ≠ 0
    ∧ ∃ r1 r2,
        calcular_tolerancia_metrologica [0.2, -0.1] 0.1 (0, 100) 0.2 0.1 0.05
          "presion" (some 0.1) = Except.ok r1
        ∧ calcular_tolerancia_metrologica [0.2, -0.1] 0.1 (0, 100) 0.3 0.15
            0.06 "presion" (some 0.2) = Except.ok r2
        ∧ r1.tolerancia_total ≤ r2.tolerancia_total :=
  ⟨by decide, by norm_num, by norm_num, by norm_num, by norm_num, by norm_num,
    by norm_num, by norm_num, by norm_num, by norm_num,
    C8_total_monotone [0.2, -0.1] 0.1 0 100 "presion" (by decide)
      0.1 0.2 0.2 0.3 0.1 0.15 0.05 0.06
      (by norm_num) (by norm_num) (by norm_num) (by norm_num)
      (by norm_num) (by norm_num) (by norm_num) (by norm_num) (by norm_num)⟩

/-- C10: two Case A calls agreeing on the range, the sensor kind, the
user-supplied sensor tolerance and the transmitter, PLC and display
tolerances, but with different error samples (each with at least two
entries) and different reference uncertainties, return the same total
tolerance: the quadrature combination does not read the calibration samples
or the reference uncertainty. -/
theorem C10_total_noninterference (e1 e2 : List ℝ)
    (u1 u2 rmin rmax tt tp tpa : ℝ) (stype : String) (inp : Option ℝ)
    (h1 : 2 ≤ e1.length) (h2 : 2 ≤ e2.length) (hspan : rmax - rmin ≠ 0) :
    ∃ r1 r2,
      calcular_tolerancia_metrologica e1 u1 (rmin, rmax) tt tp tpa stype inp
        = Except.ok r1
      ∧ calcular_tolerancia_metrologica e2 u2 (rmin, rmax) tt tp tpa stype inp
          = Except.ok r2
      ∧ r1.tolerancia_total = r2.tolerancia_total :=
  ⟨_, _, metrologica_eq_ok e1 u1 rmin rmax tt tp tpa stype inp hspan,
    metrologica_eq_ok e2 u2 rmin rmax tt tp tpa stype inp hspan, rfl⟩

/-- Witness for C10 with two different sample lists and reference
uncertainties. -/
theorem C10_total_noninterference_witness :
    2 ≤ ([0.2, -0.1] : List ℝ).length
    ∧ 2 ≤ ([1.5, -2.5, 3.5] : List ℝ).length
    ∧ (100 : ℝ) - 0 ≠ 0
    ∧ ∃ r1 r2,
        calcular_tolerancia_metrologica [0.2, -0.1] 0.1 (0, 100) 0.2 0.1 0.05
          "temperatura" none = Except.ok r1
        ∧ calcular_tolerancia_metrologica [1.5, -2.5, 3.5] 0.9 (0, 100) 0.2
            0.1 0.05 "temperatura" none = Except.ok r2
        ∧ r1.tolerancia_total = r2.tolerancia_total :=
  ⟨by simp, by simp, by norm_num,
    C10_total_noninterference [0.2, -0.1] [1.5, -2.5, 3.5] 0.1 0.9 0 100
      0.2 0.1 0.05 "temperatura" none (by simp) (by simp) (by norm_num)⟩

end Tolerancias
